import Mathlib

/-!
Shallow embedding of the client-side data cache / request-deduplication
store of the NBA-Injury-Prediction-System dashboard (the zustand store
`useNBAStore`).  The store state is a record; each asynchronous operation
is embedded as a pure function of the state and of the network response
it awaits (`Except String payload`), split at its await point into a
`Start` phase (the synchronous prefix: guard check, flag set, request
issue) and a `Complete` phase (the continuation run when the response
arrives).  Whole-operation wrappers additionally return the number of
network calls issued.  The JavaScript `Map` of injury predictions is
embedded as an association list with JS `Map.set` semantics
(`mapSet`: replace in place if the key exists, append otherwise), and the
`Set` of in-flight player-info ids as a duplicate-free list.
-/

namespace NBA

/-- Risk level of an injury prediction: the literal union
Low | Medium | High of the source. -/
inductive RiskLevel where
  | Low : RiskLevel
  | Medium : RiskLevel
  | High : RiskLevel
deriving DecidableEq, Repr

/-- The `factors` sub-record of `InjuryPrediction`. -/
structure InjuryFactors where
  temperature : Int
  humidity : Int
  timestamp : String
deriving DecidableEq, Repr

/-- The normalized `InjuryPrediction` stored in the cache. -/
structure InjuryPrediction where
  player_id : Nat
  injury_risk : Int
  risk_level : RiskLevel
  factors : InjuryFactors
deriving DecidableEq, Repr

/-- The nested `current_injury` record of a `Player`. -/
structure CurrentInjury where
  injury_type : Option String
  status : Option String
  date : Option String
  games_missed : Option Nat
deriving DecidableEq, Repr

/-- The nested `season_averages` record of a `Player`. -/
structure SeasonAverages where
  pts : Option Int
  reb : Option Int
  ast : Option Int
  stl : Option Int
  blk : Option Int
  fg_pct : Option Int
  fg3_pct : Option Int
  ft_pct : Option Int
  min : Option Int
deriving DecidableEq, Repr

/-- A `Player` record of the store.  Optional (possibly null) fields are
`Option`-valued. -/
structure Player where
  id : Nat
  full_name : String
  first_name : String
  last_name : String
  position : String
  height_feet : Option Int
  height_inches : Option Int
  weight_pounds : Option Int
  team_abbreviation : Option String
  team_full_name : Option String
  team_id : Nat
  is_active : Bool
  current_injury : Option CurrentInjury
  season_averages : Option SeasonAverages
  headshot_url : Option String
deriving DecidableEq, Repr

/-- A `Team` record of the store. -/
structure Team where
  id : Nat
  abbreviation : String
  city : String
  conference : String
  division : String
  full_name : String
  name : String
  state : String
deriving DecidableEq, Repr

/-- The `environmental` sub-record of a prediction response; fields may
be absent or null (`none`). -/
structure EnvironmentalFactors where
  temperature : Option Int
  humidity : Option Int
deriving DecidableEq, Repr

/-- The `contributing_factors` sub-record of a prediction response. -/
structure ContributingFactors where
  environmental : Option EnvironmentalFactors
deriving DecidableEq, Repr

/-- The raw response body of `POST /predict_injury`. -/
structure PredictResponse where
  player_id : Nat
  injury_risk : Int
  risk_level : RiskLevel
  contributing_factors : Option ContributingFactors
  timestamp : String
deriving DecidableEq, Repr

/-- The partial player object returned by `GET /player/id/info`.  An
outer `none` means the field is absent from the response; for fields that
are nullable on `Player`, the inner `Option` carries the null. -/
structure PlayerInfoResponse where
  id : Option Nat
  full_name : Option String
  first_name : Option String
  last_name : Option String
  position : Option String
  height_feet : Option (Option Int)
  height_inches : Option (Option Int)
  weight_pounds : Option (Option Int)
  team_abbreviation : Option (Option String)
  team_full_name : Option (Option String)
  team_id : Option Nat
  is_active : Option Bool
  current_injury : Option (Option CurrentInjury)
  season_averages : Option SeasonAverages
  headshot_url : Option String
deriving DecidableEq, Repr

/-- The store state (`NBAState` of the source), with the JS `Map` of
predictions as an association list and the JS `Set` of in-flight
player-info ids as a list. -/
structure NBAState where
  players : List Player
  teams : List Team
  loading : Bool
  error : Option String
  selectedPlayerId : Option Nat
  injuryPredictions : List (Nat × InjuryPrediction)
  fetchingInfo : List Nat
  teamsFetching : Bool
  predictionsBatching : Bool
deriving DecidableEq, Repr

/-- The initial store state. -/
def initialState : NBAState :=
  { players := []
    teams := []
    loading := false
    error := none
    selectedPlayerId := none
    injuryPredictions := []
    fetchingInfo := []
    teamsFetching := false
    predictionsBatching := false }

/-- JS `Map.set`: if the key is already present its value is replaced in
place, otherwise the pair is appended at the end. -/
def mapSet (m : List (Nat × InjuryPrediction)) (k : Nat) (v : InjuryPrediction) :
    List (Nat × InjuryPrediction) :=
  match m with
  | [] => [(k, v)]
  | (k1, v1) :: rest =>
      if k1 = k then (k, v) :: rest else (k1, v1) :: mapSet rest k v

/-- JS `Map.get`: the value stored under the key, if any. -/
def mapLookup (m : List (Nat × InjuryPrediction)) (k : Nat) : Option InjuryPrediction :=
  match m with
  | [] => none
  | (k1, v1) :: rest => if k1 = k then some v1 else mapLookup rest k

/-- `fetchPlayers`: if the player collection is empty a loading spinner
is raised; then `GET /players/summary` is awaited; on failure
`GET /players` is awaited as fallback; on terminal failure the error slot
records the fallback failure message.  Both awaited responses are passed
as oracles (the second is consumed only on primary failure).  Returns the
new state and the number of network calls issued. -/
def fetchPlayers (s : NBAState) (rPrimary rFallback : Except String (List Player)) :
    NBAState × Nat :=
  let s1 := if s.players.length = 0 then { s with loading := true, error := none } else s
  match rPrimary with
  | Except.ok ps => ({ s1 with players := ps, loading := false }, 1)
  | Except.error _ =>
      match rFallback with
      | Except.ok ps => ({ s1 with players := ps, loading := false }, 2)
      | Except.error m2 => ({ s1 with error := some m2, loading := false }, 2)

/-- The synchronous prefix of `fetchTeams`, up to its await point: bail
out if `teamsFetching` is set, otherwise raise the loading and in-flight
flags and issue the `GET /teams` request.  The boolean reports whether a
network request was issued. -/
def fetchTeamsStart (s : NBAState) : NBAState × Bool :=
  if s.teamsFetching then (s, false)
  else ({ s with loading := true, error := none, teamsFetching := true }, true)

/-- The continuation of `fetchTeams` once the `GET /teams` response
arrives: replace the team collection on success, record the error message
on failure; the loading and in-flight flags are cleared either way. -/
def fetchTeamsComplete (s : NBAState) (r : Except String (List Team)) : NBAState :=
  match r with
  | Except.ok ts => { s with teams := ts, loading := false, teamsFetching := false }
  | Except.error m => { s with error := some m, loading := false, teamsFetching := false }

/-- Whole-operation `fetchTeams`, returning the number of network calls
issued. -/
def fetchTeams (s : NBAState) (r : Except String (List Team)) : NBAState × Nat :=
  let p := fetchTeamsStart s
  if p.2 then (fetchTeamsComplete p.1 r, 1) else (p.1, 0)

/-- `selectPlayer`. -/
def selectPlayer (s : NBAState) (playerId : Option Nat) : NBAState :=
  { s with selectedPlayerId := playerId }

/-- The optional chain
`data.contributing_factors?.environmental?.temperature` of
`predictInjury`. -/
def chainTemperature (data : PredictResponse) : Option Int :=
  (data.contributing_factors.bind (fun cf => cf.environmental)).bind
    (fun env => env.temperature)

/-- The optional chain
`data.contributing_factors?.environmental?.humidity` of
`predictInjury`. -/
def chainHumidity (data : PredictResponse) : Option Int :=
  (data.contributing_factors.bind (fun cf => cf.environmental)).bind
    (fun env => env.humidity)

/-- The normalization of the backend response shape into
`InjuryPrediction` performed by `predictInjury`: the factor fields
default to the request inputs when the optional chain comes up empty
(the nullish coalescing in the source). -/
def normalizePrediction (data : PredictResponse) (temperature humidity : Int) :
    InjuryPrediction :=
  { player_id := data.player_id
    injury_risk := data.injury_risk
    risk_level := data.risk_level
    factors :=
      { temperature := (chainTemperature data).getD temperature
        humidity := (chainHumidity data).getD humidity
        timestamp := data.timestamp } }

/-- `predictInjury`: one `POST /predict_injury` call is always issued; on
success the normalized prediction is written under the requested player
id (JS `Map.set` on a copy of the map), on failure the error slot records
the message.  Returns the new state and the network-call count. -/
def predictInjury (s : NBAState) (playerId : Nat) (temperature humidity : Int)
    (r : Except String PredictResponse) : NBAState × Nat :=
  match r with
  | Except.ok data =>
      ({ s with injuryPredictions :=
          mapSet s.injuryPredictions playerId (normalizePrediction data temperature humidity) },
        1)
  | Except.error m => ({ s with error := some m }, 1)

/-- `predictInjury` at the source default arguments
temperature = 72, humidity = 50. -/
def predictInjuryDefault (s : NBAState) (playerId : Nat)
    (r : Except String PredictResponse) : NBAState × Nat :=
  predictInjury s playerId 72 50 r

/-- The JS object spread `\x7b ...p, ...res.data \x7d` of
`fetchPlayerInfo`: every field present in the response overwrites the
corresponding field of the existing record, absent fields keep their
existing values. -/
def mergePlayer (p : Player) (r : PlayerInfoResponse) : Player :=
  { id := r.id.getD p.id
    full_name := r.full_name.getD p.full_name
    first_name := r.first_name.getD p.first_name
    last_name := r.last_name.getD p.last_name
    position := r.position.getD p.position
    height_feet := r.height_feet.getD p.height_feet
    height_inches := r.height_inches.getD p.height_inches
    weight_pounds := r.weight_pounds.getD p.weight_pounds
    team_abbreviation := r.team_abbreviation.getD p.team_abbreviation
    team_full_name := r.team_full_name.getD p.team_full_name
    team_id := r.team_id.getD p.team_id
    is_active := r.is_active.getD p.is_active
    current_injury := r.current_injury.getD p.current_injury
    season_averages :=
      match r.season_averages with
      | some sa => some sa
      | none => p.season_averages
    headshot_url :=
      match r.headshot_url with
      | some u => some u
      | none => p.headshot_url }

/-- The synchronous prefix of `fetchPlayerInfo`: bail out if this id is
already being enriched, otherwise add it to the in-flight set and issue
the `GET /player/id/info` request. -/
def fetchPlayerInfoStart (s : NBAState) (playerId : Nat) : NBAState × Bool :=
  if playerId ∈ s.fetchingInfo then (s, false)
  else ({ s with fetchingInfo := playerId :: s.fetchingInfo }, true)

/-- The continuation of `fetchPlayerInfo` once the response arrives: on
success the matching player record is replaced by the spread merge and
the in-flight marker deleted; on failure the error slot records the
message and the marker is deleted as well. -/
def fetchPlayerInfoComplete (s : NBAState) (playerId : Nat)
    (r : Except String PlayerInfoResponse) : NBAState :=
  match r with
  | Except.ok data =>
      { s with
        players := s.players.map (fun p => if p.id = playerId then mergePlayer p data else p)
        fetchingInfo := s.fetchingInfo.erase playerId }
  | Except.error m =>
      { s with error := some m, fetchingInfo := s.fetchingInfo.erase playerId }

/-- Whole-operation `fetchPlayerInfo`, returning the network-call
count. -/
def fetchPlayerInfo (s : NBAState) (playerId : Nat)
    (r : Except String PlayerInfoResponse) : NBAState × Nat :=
  let p := fetchPlayerInfoStart s playerId
  if p.2 then (fetchPlayerInfoComplete p.1 playerId r, 1) else (p.1, 0)

/-- `getPlayerById`: pure in-memory lookup. -/
def getPlayerById (s : NBAState) (playerId : Nat) : Option Player :=
  s.players.find? (fun p => p.id = playerId)

/-- Result of `getTeamById`: the returned team (the not-found sentinel is
`none`), the state after the synchronous part of the call, and whether a
`/teams` network request was issued by the lazily triggered
`fetchTeams`. -/
structure TeamLookup where
  found : Option Team
  state : NBAState
  issued : Bool
deriving DecidableEq, Repr

/-- `getTeamById`: in-memory lookup; on a miss with no team load in
flight it fires `fetchTeams` (whose synchronous prefix runs immediately,
up to issuing the request) before returning the sentinel. -/
def getTeamById (s : NBAState) (teamId : Nat) : TeamLookup :=
  let found := s.teams.find? (fun t => t.id = teamId)
  if found.isNone && !s.teamsFetching then
    let p := fetchTeamsStart s
    { found := found, state := p.1, issued := p.2 }
  else
    { found := found, state := s, issued := false }

/-- The synchronous prefix of `batchPredictAll`: bail out if a bulk
prediction is already in flight or the player collection is empty,
otherwise raise the in-flight flag and issue the one
`POST /predict_injury/bulk` request carrying all known player ids. -/
def batchPredictAllStart (s : NBAState) : NBAState × Bool :=
  if s.predictionsBatching || s.players.length = 0 then (s, false)
  else ({ s with predictionsBatching := true }, true)

/-- The continuation of `batchPredictAll` once the bulk response arrives:
on success every prediction of the response (the values of the id-keyed
object, in order) is written under its own `player_id`; on failure the
error slot records the message.  The `finally` clause clears the
in-flight flag in both outcomes. -/
def batchPredictAllComplete (s : NBAState)
    (r : Except String (List InjuryPrediction)) : NBAState :=
  match r with
  | Except.ok preds =>
      { s with
        injuryPredictions :=
          preds.foldl (fun m pred => mapSet m pred.player_id pred) s.injuryPredictions
        predictionsBatching := false }
  | Except.error m => { s with error := some m, predictionsBatching := false }

/-- Whole-operation `batchPredictAll`, returning the network-call
count. -/
def batchPredictAll (s : NBAState) (r : Except String (List InjuryPrediction)) :
    NBAState × Nat :=
  let p := batchPredictAllStart s
  if p.2 then (batchPredictAllComplete p.1 r, 1) else (p.1, 0)

/-- One atomic state transition of the store: each constructor is one
operation (or one phase of an operation whose body spans an await point),
with the network response it consumes as an oracle argument. -/
inductive Op where
  | opFetchPlayers (r1 r2 : Except String (List Player)) : Op
  | opFetchTeamsStart : Op
  | opFetchTeamsComplete (r : Except String (List Team)) : Op
  | opSelectPlayer (pid : Option Nat) : Op
  | opPredictInjury (pid : Nat) (temperature humidity : Int)
      (r : Except String PredictResponse) : Op
  | opFetchPlayerInfoStart (pid : Nat) : Op
  | opFetchPlayerInfoComplete (pid : Nat) (r : Except String PlayerInfoResponse) : Op
  | opGetTeamById (tid : Nat) : Op
  | opBatchPredictAllStart : Op
  | opBatchPredictAllComplete (r : Except String (List InjuryPrediction)) : Op

/-- The state reached by one operation. -/
def step (s : NBAState) : Op → NBAState
  | Op.opFetchPlayers r1 r2 => (fetchPlayers s r1 r2).1
  | Op.opFetchTeamsStart => (fetchTeamsStart s).1
  | Op.opFetchTeamsComplete r => fetchTeamsComplete s r
  | Op.opSelectPlayer pid => selectPlayer s pid
  | Op.opPredictInjury pid t h r => (predictInjury s pid t h r).1
  | Op.opFetchPlayerInfoStart pid => (fetchPlayerInfoStart s pid).1
  | Op.opFetchPlayerInfoComplete pid r => fetchPlayerInfoComplete s pid r
  | Op.opGetTeamById tid => (getTeamById s tid).state
  | Op.opBatchPredictAllStart => (batchPredictAllStart s).1
  | Op.opBatchPredictAllComplete r => batchPredictAllComplete s r

/-- The state reached by a sequence of operations from a starting
state. -/
def run (s : NBAState) (ops : List Op) : NBAState :=
  ops.foldl step s

/-- The keys of the prediction map, in insertion order. -/
def predKeys (m : List (Nat × InjuryPrediction)) : List Nat :=
  m.map Prod.fst

theorem predKeys_mapSet_mem (m : List (Nat × InjuryPrediction)) (k : Nat)
    (v : InjuryPrediction) (a : Nat) :
    a ∈ predKeys (mapSet m k v) ↔ a ∈ predKeys m ∨ a = k := by
  induction m with
  | nil => simp [mapSet, predKeys]
  | cons hd tl ih =>
      obtain ⟨k1, v1⟩ := hd
      by_cases hk : k1 = k
      · subst hk
        have h1 : mapSet ((k1, v1) :: tl) k1 v = (k1, v) :: tl := by
          simp [mapSet]
        rw [h1]
        simp only [predKeys, List.map_cons, List.mem_cons]
        tauto
      · have h1 : mapSet ((k1, v1) :: tl) k v = (k1, v1) :: mapSet tl k v := by
          simp [mapSet, hk]
        rw [h1]
        simp only [predKeys, List.map_cons, List.mem_cons] at ih ⊢
        rw [ih]
        tauto

theorem predKeys_mapSet_nodup (m : List (Nat × InjuryPrediction)) (k : Nat)
    (v : InjuryPrediction) (h : (predKeys m).Nodup) :
    (predKeys (mapSet m k v)).Nodup := by
  induction m with
  | nil => simp [mapSet, predKeys]
  | cons hd tl ih =>
      obtain ⟨k1, v1⟩ := hd
      simp only [predKeys, List.map_cons, List.nodup_cons] at h
      by_cases hk : k1 = k
      · subst hk
        have h1 : mapSet ((k1, v1) :: tl) k1 v = (k1, v) :: tl := by
          simp [mapSet]
        rw [h1]
        simp only [predKeys, List.map_cons, List.nodup_cons]
        exact h
      · have h1 : mapSet ((k1, v1) :: tl) k v = (k1, v1) :: mapSet tl k v := by
          simp [mapSet, hk]
        rw [h1]
        simp only [predKeys, List.map_cons, List.nodup_cons]
        refine ⟨?_, ih h.2⟩
        intro hmem
        rcases (predKeys_mapSet_mem tl k v k1).mp hmem with hc | hc
        · exact h.1 hc
        · exact hk hc

theorem predKeys_foldl_nodup (preds : List InjuryPrediction)
    (m : List (Nat × InjuryPrediction)) (h : (predKeys m).Nodup) :
    (predKeys (preds.foldl (fun acc pred => mapSet acc pred.player_id pred) m)).Nodup := by
  induction preds generalizing m with
  | nil => simpa using h
  | cons p tl ih => exact ih _ (predKeys_mapSet_nodup m p.player_id p h)

theorem mapLookup_mapSet_self (m : List (Nat × InjuryPrediction)) (k : Nat)
    (v : InjuryPrediction) : mapLookup (mapSet m k v) k = some v := by
  induction m with
  | nil => simp [mapSet, mapLookup]
  | cons hd tl ih =>
      obtain ⟨k1, v1⟩ := hd
      by_cases hk : k1 = k
      · subst hk
        simp [mapSet, mapLookup]
      · simp [mapSet, mapLookup, hk, ih]

theorem fetchPlayers_predictions (s : NBAState) (r1 r2 : Except String (List Player)) :
    (fetchPlayers s r1 r2).1.injuryPredictions = s.injuryPredictions := by
  cases r1 <;> cases r2 <;> simp only [fetchPlayers] <;> split <;> rfl

theorem fetchTeamsStart_predictions (s : NBAState) :
    (fetchTeamsStart s).1.injuryPredictions = s.injuryPredictions := by
  simp only [fetchTeamsStart]
  split <;> rfl

theorem fetchTeamsComplete_predictions (s : NBAState) (r : Except String (List Team)) :
    (fetchTeamsComplete s r).injuryPredictions = s.injuryPredictions := by
  cases r <;> rfl

theorem fetchPlayerInfoStart_predictions (s : NBAState) (pid : Nat) :
    (fetchPlayerInfoStart s pid).1.injuryPredictions = s.injuryPredictions := by
  simp only [fetchPlayerInfoStart]
  split <;> rfl

theorem fetchPlayerInfoComplete_predictions (s : NBAState) (pid : Nat)
    (r : Except String PlayerInfoResponse) :
    (fetchPlayerInfoComplete s pid r).injuryPredictions = s.injuryPredictions := by
  cases r <;> rfl

theorem getTeamById_predictions (s : NBAState) (tid : Nat) :
    (getTeamById s tid).state.injuryPredictions = s.injuryPredictions := by
  simp only [getTeamById]
  split
  · exact fetchTeamsStart_predictions s
  · rfl

theorem batchPredictAllStart_predictions (s : NBAState) :
    (batchPredictAllStart s).1.injuryPredictions = s.injuryPredictions := by
  simp only [batchPredictAllStart]
  split <;> rfl

theorem step_predictions_nodup (s : NBAState) (op : Op)
    (h : (predKeys s.injuryPredictions).Nodup) :
    (predKeys (step s op).injuryPredictions).Nodup := by
  cases op with
  | opFetchPlayers r1 r2 => rw [step, fetchPlayers_predictions]; exact h
  | opFetchTeamsStart => rw [step, fetchTeamsStart_predictions]; exact h
  | opFetchTeamsComplete r => rw [step, fetchTeamsComplete_predictions]; exact h
  | opSelectPlayer pid => exact h
  | opPredictInjury pid t hm r =>
      cases r with
      | ok data => exact predKeys_mapSet_nodup _ _ _ h
      | error m => exact h
  | opFetchPlayerInfoStart pid => rw [step, fetchPlayerInfoStart_predictions]; exact h
  | opFetchPlayerInfoComplete pid r =>
      rw [step, fetchPlayerInfoComplete_predictions]; exact h
  | opGetTeamById tid => rw [step, getTeamById_predictions]; exact h
  | opBatchPredictAllStart => rw [step, batchPredictAllStart_predictions]; exact h
  | opBatchPredictAllComplete r =>
      cases r with
      | ok preds => exact predKeys_foldl_nodup _ _ h
      | error m => exact h

theorem run_predictions_nodup (ops : List Op) (s : NBAState)
    (h : (predKeys s.injuryPredictions).Nodup) :
    (predKeys (run s ops).injuryPredictions).Nodup := by
  induction ops generalizing s with
  | nil => exact h
  | cons op tl ih => exact ih (step s op) (step_predictions_nodup s op h)

/-- A concrete team used to instantiate hypotheses of the claim
theorems. -/
def exTeam : Team :=
  { id := 1
    abbreviation := "LAL"
    city := "Los Angeles"
    conference := "West"
    division := "Pacific"
    full_name := "Los Angeles Lakers"
    name := "Lakers"
    state := "California" }

/-- A concrete player used to instantiate hypotheses of the claim
theorems. -/
def exPlayer : Player :=
  { id := 7
    full_name := "LeBron James"
    first_name := "LeBron"
    last_name := "James"
    position := "F"
    height_feet := none
    height_inches := none
    weight_pounds := some 250
    team_abbreviation := some "LAL"
    team_full_name := some "Los Angeles Lakers"
    team_id := 1
    is_active := true
    current_injury := none
    season_averages := none
    headshot_url := none }

/-- A second concrete player, on which the frame part of the enrichment
claim is exercised. -/
def exPlayer2 : Player :=
  { exPlayer with
    id := 8
    full_name := "Anthony Davis"
    first_name := "Anthony"
    last_name := "Davis" }

/-- A state whose `teamsFetching` guard is raised. -/
def busyTeamsState : NBAState :=
  { initialState with teamsFetching := true }

/-- A state whose `predictionsBatching` guard is raised and that holds
one player. -/
def busyBatchState : NBAState :=
  { initialState with predictionsBatching := true, players := [exPlayer] }

/-- A state holding one team and no in-flight team fetch. -/
def oneTeamState : NBAState :=
  { initialState with teams := [exTeam] }

/-- A state holding two players. -/
def twoPlayerState : NBAState :=
  { initialState with players := [exPlayer, exPlayer2] }

/-- Claim C1: for every reachable state produced by any sequence of
cache operations, the injury-prediction mapping holds at most one entry
per player id (its key list is duplicate-free), and a later successful
write for the same id replaces the earlier entry: after a successful
`predictInjury` step the lookup for that id yields the newly normalized
prediction. -/
theorem C1_prediction_map_one_entry_per_id (ops : List Op) :
    (predKeys (run initialState ops).injuryPredictions).Nodup ∧
    ∀ (s : NBAState) (pid : Nat) (t hm : Int) (data : PredictResponse),
      mapLookup
          ((step s (Op.opPredictInjury pid t hm (Except.ok data))).injuryPredictions) pid
        = some (normalizePrediction data t hm) := by
  constructor
  · exact run_predictions_nodup ops initialState (by simp [initialState, predKeys])
  · intro s pid t hm data
    exact mapLookup_mapSet_self s.injuryPredictions pid (normalizePrediction data t hm)

/-- Claim C2: `fetchTeams` called while the `teamsFetching` guard is set
returns immediately with state untouched and no network request; from an
idle state, the first of two overlapping calls issues the request and
raises the guard, the second issues nothing and changes nothing, so the
two calls issue exactly one `/teams` network call in total. -/
theorem C2_fetchTeams_in_flight_guard (s s0 : NBAState)
    (hbusy : s.teamsFetching = true) (hidle : s0.teamsFetching = false) :
    fetchTeamsStart s = (s, false) ∧
    (fetchTeamsStart s0).2 = true ∧
    (fetchTeamsStart (fetchTeamsStart s0).1).2 = false ∧
    (fetchTeamsStart (fetchTeamsStart s0).1).1 = (fetchTeamsStart s0).1 ∧
    (if (fetchTeamsStart s0).2 then 1 else 0) +
        (if (fetchTeamsStart (fetchTeamsStart s0).1).2 then 1 else 0) = 1 := by
  simp [fetchTeamsStart, hbusy, hidle]

/-- Witness for C2 at concrete states. -/
theorem C2_fetchTeams_in_flight_guard_witness :
    busyTeamsState.teamsFetching = true ∧
    initialState.teamsFetching = false ∧
    fetchTeamsStart busyTeamsState = (busyTeamsState, false) ∧
    (fetchTeamsStart initialState).2 = true ∧
    (fetchTeamsStart (fetchTeamsStart initialState).1).2 = false := by
  have h := C2_fetchTeams_in_flight_guard busyTeamsState initialState rfl rfl
  exact ⟨rfl, rfl, h.1, h.2.1, h.2.2.1⟩

/-- Claim C3: `batchPredictAll` called while a bulk prediction is in
flight or while the player collection is empty returns the state
unchanged and issues zero network calls, whatever response oracle is
supplied. -/
theorem C3_batchPredictAll_guard_noop (s : NBAState)
    (h : s.predictionsBatching = true ∨ s.players = [])
    (r : Except String (List InjuryPrediction)) :
    batchPredictAll s r = (s, 0) := by
  rcases h with h | h
  · simp [batchPredictAll, batchPredictAllStart, h]
  · simp [batchPredictAll, batchPredictAllStart, h]

/-- Witness for C3: both guard branches at concrete states. -/
theorem C3_batchPredictAll_guard_noop_witness :
    batchPredictAll busyBatchState (Except.error "down") = (busyBatchState, 0) ∧
    batchPredictAll initialState (Except.ok []) = (initialState, 0) :=
  ⟨C3_batchPredictAll_guard_noop busyBatchState (Or.inl rfl) (Except.error "down"),
   C3_batchPredictAll_guard_noop initialState (Or.inr rfl) (Except.ok [])⟩

/-- Claim C4: a `getTeamById` call for an id absent from the team
collection with no team load in flight returns the not-found sentinel,
issues the one lazily triggered load and raises the guard without
touching the team collection; and any `getTeamById` call made while a
team load is in flight issues no additional load and leaves the state
untouched. -/
theorem C4_lazy_team_load_once (s : NBAState) (tid : Nat)
    (habsent : s.teams.find? (fun t => t.id = tid) = none)
    (hidle : s.teamsFetching = false)
    (s2 : NBAState) (tid2 : Nat) (hbusy : s2.teamsFetching = true) :
    (getTeamById s tid).found = none ∧
    (getTeamById s tid).issued = true ∧
    (getTeamById s tid).state.teamsFetching = true ∧
    (getTeamById s tid).state.teams = s.teams ∧
    (getTeamById s2 tid2).issued = false ∧
    (getTeamById s2 tid2).state = s2 := by
  refine ⟨?_, ?_, ?_, ?_, ?_, ?_⟩ <;>
    simp [getTeamById, fetchTeamsStart, habsent, hidle, hbusy]

/-- Witness for C4: the first miss from the initial state triggers the
load, a second miss against the triggered state does not. -/
theorem C4_lazy_team_load_once_witness :
    initialState.teams.find? (fun t => t.id = 3) = none ∧
    initialState.teamsFetching = false ∧
    (getTeamById initialState 3).found = none ∧
    (getTeamById initialState 3).issued = true ∧
    (getTeamById (getTeamById initialState 3).state 3).issued = false := by
  have h := C4_lazy_team_load_once initialState 3 rfl rfl
    (getTeamById initialState 3).state 3 (by decide)
  exact ⟨rfl, rfl, h.1, h.2.1, h.2.2.2.2.1⟩

/-- A player-info response carrying only a height of six feet; every
other field is absent. -/
def exInfo : PlayerInfoResponse :=
  { id := none
    full_name := none
    first_name := none
    last_name := none
    position := none
    height_feet := some (some 6)
    height_inches := none
    weight_pounds := none
    team_abbreviation := none
    team_full_name := none
    team_id := none
    is_active := none
    current_injury := none
    season_averages := none
    headshot_url := none }

/-- A player-info response with every field absent. -/
def exInfoEmpty : PlayerInfoResponse :=
  { exInfo with height_feet := none }

/-- Claim C5: for an id not currently being enriched, a successful
`fetchPlayerInfo` replaces the matching player record with the spread
merge of the old record and the response and leaves every other record
unchanged; the per-id in-flight marker is cleared on completion and on
failure alike; and the merge lets fields present in the response
overwrite while fields absent from the response keep their existing
values. -/
theorem C5_enrichPlayer_merge (s : NBAState) (pid : Nat)
    (data : PlayerInfoResponse) (emsg : String)
    (hnotin : pid ∉ s.fetchingInfo) :
    (fetchPlayerInfo s pid (Except.ok data)).2 = 1 ∧
    (fetchPlayerInfo s pid (Except.ok data)).1.players
      = s.players.map (fun p => if p.id = pid then mergePlayer p data else p) ∧
    (∀ p : Player, p ∈ s.players → p.id ≠ pid →
        p ∈ (fetchPlayerInfo s pid (Except.ok data)).1.players) ∧
    pid ∉ (fetchPlayerInfo s pid (Except.ok data)).1.fetchingInfo ∧
    pid ∉ (fetchPlayerInfo s pid (Except.error emsg)).1.fetchingInfo ∧
    (∀ (p : Player) (v : Option Int), data.height_feet = some v →
        (mergePlayer p data).height_feet = v) ∧
    (∀ p : Player, data.height_feet = none →
        (mergePlayer p data).height_feet = p.height_feet) ∧
    (∀ p : Player, data.weight_pounds = none →
        (mergePlayer p data).weight_pounds = p.weight_pounds) := by
  have hstart : fetchPlayerInfoStart s pid = ({ s with fetchingInfo := pid :: s.fetchingInfo }, true) := by
    simp [fetchPlayerInfoStart, hnotin]
  have herase : (pid :: s.fetchingInfo).erase pid = s.fetchingInfo := by
    simp [List.erase_cons]
  refine ⟨?_, ?_, ?_, ?_, ?_, ?_, ?_, ?_⟩
  · simp [fetchPlayerInfo, hstart]
  · simp [fetchPlayerInfo, hstart, fetchPlayerInfoComplete]
  · intro p hp hne
    simp only [fetchPlayerInfo, hstart, if_pos, fetchPlayerInfoComplete]
    exact List.mem_map.mpr ⟨p, hp, by simp [hne]⟩
  · simp [fetchPlayerInfo, hstart, fetchPlayerInfoComplete, herase]
    exact hnotin
  · simp [fetchPlayerInfo, hstart, fetchPlayerInfoComplete, herase]
    exact hnotin
  · intro p v hv
    simp [mergePlayer, hv]
  · intro p hv
    simp [mergePlayer, hv]
  · intro p hv
    simp [mergePlayer, hv]

/-- Witness for C5: enriching player 7 of a two-player state with a
height of six feet sets the height, preserves the existing weight, keeps
player 8 untouched, and clears the marker in both outcomes. -/
theorem C5_enrichPlayer_merge_witness :
    (7 ∉ twoPlayerState.fetchingInfo) ∧
    (fetchPlayerInfo twoPlayerState 7 (Except.ok exInfo)).1.players
      = [mergePlayer exPlayer exInfo, exPlayer2] ∧
    exPlayer2 ∈ (fetchPlayerInfo twoPlayerState 7 (Except.ok exInfo)).1.players ∧
    (7 ∉ (fetchPlayerInfo twoPlayerState 7 (Except.ok exInfo)).1.fetchingInfo) ∧
    (7 ∉ (fetchPlayerInfo twoPlayerState 7 (Except.error "down")).1.fetchingInfo) ∧
    (mergePlayer exPlayer exInfo).height_feet = some 6 ∧
    (mergePlayer exPlayer exInfo).weight_pounds = some 250 ∧
    (mergePlayer exPlayer exInfoEmpty).height_feet = exPlayer.height_feet := by
  have h7 : (7 : Nat) ∉ twoPlayerState.fetchingInfo := by decide
  have h := C5_enrichPlayer_merge twoPlayerState 7 exInfo "down" h7
  have hE := C5_enrichPlayer_merge twoPlayerState 7 exInfoEmpty "down" h7
  refine ⟨h7, ?_, ?_, h.2.2.2.1, h.2.2.2.2.1, ?_, ?_, ?_⟩
  · rw [h.2.1]; rfl
  · exact h.2.2.1 exPlayer2 (by simp [twoPlayerState]) (by decide)
  · exact h.2.2.2.2.2.1 exPlayer (some 6) rfl
  · have := h.2.2.2.2.2.2.2 exPlayer rfl
    rw [this]; rfl
  · exact hE.2.2.2.2.2.2.1 exPlayer rfl

/-- A prediction response whose contributing factors carry both
environmental values. -/
def exPredictResponse : PredictResponse :=
  { player_id := 7
    injury_risk := 1
    risk_level := RiskLevel.High
    contributing_factors :=
      some { environmental := some { temperature := some 95, humidity := some 80 } }
    timestamp := "2024-01-01T00:00:00Z" }

/-- A prediction response without contributing factors. -/
def exPredictResponseBare : PredictResponse :=
  { player_id := 7
    injury_risk := 0
    risk_level := RiskLevel.Low
    contributing_factors := none
    timestamp := "2024-01-02T00:00:00Z" }

/-- Claim C6: a successful `predictInjury` at the default arguments
(temperature 72, humidity 50) stores under the requested player id —
overwriting any previous entry for it — the normalized prediction, whose
identity, risk and timestamp fields are copied from the response, whose
factor fields equal the values of
`contributing_factors.environmental` when the server supplies them, and
which default to 72 and 50 when the optional chain comes up empty. -/
theorem C6_predictInjury_normalizes (s : NBAState) (pid : Nat) (data : PredictResponse) :
    mapLookup ((predictInjuryDefault s pid (Except.ok data)).1.injuryPredictions) pid
      = some (normalizePrediction data 72 50) ∧
    (normalizePrediction data 72 50).player_id = data.player_id ∧
    (normalizePrediction data 72 50).injury_risk = data.injury_risk ∧
    (normalizePrediction data 72 50).risk_level = data.risk_level ∧
    (normalizePrediction data 72 50).factors.timestamp = data.timestamp ∧
    (∀ (cf : ContributingFactors) (env : EnvironmentalFactors) (t : Int),
        data.contributing_factors = some cf → cf.environmental = some env →
        env.temperature = some t →
        (normalizePrediction data 72 50).factors.temperature = t) ∧
    (∀ (cf : ContributingFactors) (env : EnvironmentalFactors) (hm : Int),
        data.contributing_factors = some cf → cf.environmental = some env →
        env.humidity = some hm →
        (normalizePrediction data 72 50).factors.humidity = hm) ∧
    (chainTemperature data = none →
        (normalizePrediction data 72 50).factors.temperature = 72) ∧
    (chainHumidity data = none →
        (normalizePrediction data 72 50).factors.humidity = 50) := by
  refine ⟨?_, rfl, rfl, rfl, rfl, ?_, ?_, ?_, ?_⟩
  · exact mapLookup_mapSet_self s.injuryPredictions pid (normalizePrediction data 72 50)
  · intro cf env t hcf henv ht
    simp [normalizePrediction, chainTemperature, hcf, henv, ht]
  · intro cf env hm hcf henv hh
    simp [normalizePrediction, chainHumidity, hcf, henv, hh]
  · intro hnone
    simp [normalizePrediction, hnone]
  · intro hnone
    simp [normalizePrediction, hnone]

/-- Witness for C6: a response with supplied environmental values stores
them, one without stores the defaults. -/
theorem C6_predictInjury_normalizes_witness :
    mapLookup
        ((predictInjuryDefault initialState 7 (Except.ok exPredictResponse)).1.injuryPredictions)
        7
      = some (normalizePrediction exPredictResponse 72 50) ∧
    (normalizePrediction exPredictResponse 72 50).factors.temperature = 95 ∧
    (normalizePrediction exPredictResponse 72 50).factors.humidity = 80 ∧
    (normalizePrediction exPredictResponseBare 72 50).factors.temperature = 72 ∧
    (normalizePrediction exPredictResponseBare 72 50).factors.humidity = 50 := by
  have h := C6_predictInjury_normalizes initialState 7 exPredictResponse
  have hB := C6_predictInjury_normalizes initialState 7 exPredictResponseBare
  refine ⟨h.1, ?_, ?_, ?_, ?_⟩
  · exact h.2.2.2.2.2.1 _ _ 95 rfl rfl rfl
  · exact h.2.2.2.2.2.2.1 _ _ 80 rfl rfl rfl
  · exact hB.2.2.2.2.2.2.2.1 rfl
  · exact hB.2.2.2.2.2.2.2.2 rfl

/-- Claim C7: when the primary and the fallback player fetches both
fail, `fetchPlayers` leaves the player collection unchanged, sets the
shared error slot to the fallback failure message, clears the loading
flag, and issues exactly the two network calls (primary plus the one
fallback, no further retry). -/
theorem C7_fetchPlayers_both_fail (s : NBAState) (m1 m2 : String) :
    (fetchPlayers s (Except.error m1) (Except.error m2)).1.players = s.players ∧
    (fetchPlayers s (Except.error m1) (Except.error m2)).1.error = some m2 ∧
    (fetchPlayers s (Except.error m1) (Except.error m2)).1.loading = false ∧
    (fetchPlayers s (Except.error m1) (Except.error m2)).2 = 2 := by
  by_cases hc : s.players.length = 0 <;> simp [fetchPlayers, hc]

/-- Claim C8: when the primary player fetch fails and the fallback
succeeds with payload L, `fetchPlayers` sets the player collection to L,
records no error (the error slot ends cleared when the collection was
empty at the start, and is otherwise left at its prior value), and
issues exactly the two calls. -/
theorem C8_fetchPlayers_fallback_success (s : NBAState) (m : String) (L : List Player) :
    (fetchPlayers s (Except.error m) (Except.ok L)).1.players = L ∧
    ((fetchPlayers s (Except.error m) (Except.ok L)).1.error
      = if s.players.length = 0 then none else s.error) ∧
    (fetchPlayers s (Except.error m) (Except.ok L)).2 = 2 := by
  by_cases hc : s.players.length = 0 <;> simp [fetchPlayers, hc]

/-- Claim C9: once `batchPredictAll` passes its guard, the
`predictionsBatching` flag is cleared on completion whether the bulk
request succeeds or fails; exactly one network call is issued; and on
failure the error slot records the message and the prediction mapping is
left unchanged. -/
theorem C9_batchPredictAll_flag_cleared (s : NBAState)
    (hguard : s.predictionsBatching = false) (hne : s.players.length ≠ 0)
    (r : Except String (List InjuryPrediction)) (m : String) :
    (batchPredictAll s r).1.predictionsBatching = false ∧
    (batchPredictAll s r).2 = 1 ∧
    (batchPredictAll s (Except.error m)).1.error = some m ∧
    (batchPredictAll s (Except.error m)).1.injuryPredictions = s.injuryPredictions := by
  have hstart : batchPredictAllStart s = ({ s with predictionsBatching := true }, true) := by
    simp [batchPredictAllStart, hguard, hne]
  refine ⟨?_, ?_, ?_, ?_⟩
  · cases r <;> simp [batchPredictAll, hstart, batchPredictAllComplete]
  · simp [batchPredictAll, hstart]
  · simp [batchPredictAll, hstart, batchPredictAllComplete]
  · simp [batchPredictAll, hstart, batchPredictAllComplete]

/-- Witness for C9 at a one-player state, for a successful and a failed
bulk response. -/
theorem C9_batchPredictAll_flag_cleared_witness :
    twoPlayerState.predictionsBatching = false ∧
    twoPlayerState.players.length ≠ 0 ∧
    (batchPredictAll twoPlayerState (Except.ok [])).1.predictionsBatching = false ∧
    (batchPredictAll twoPlayerState (Except.error "down")).1.predictionsBatching = false ∧
    (batchPredictAll twoPlayerState (Except.error "down")).1.error = some "down" ∧
    (batchPredictAll twoPlayerState (Except.error "down")).1.injuryPredictions
      = twoPlayerState.injuryPredictions := by
  have hok := C9_batchPredictAll_flag_cleared twoPlayerState rfl (by decide)
    (Except.ok []) "down"
  have herr := C9_batchPredictAll_flag_cleared twoPlayerState rfl (by decide)
    (Except.error "down") "down"
  exact ⟨rfl, by decide, hok.1, herr.1, herr.2.2.1, herr.2.2.2⟩

/-- Claim C10: when the `/teams` fetch inside `fetchTeams` fails, the
existing team collection is left unchanged; only the error slot, the
loading flag and the `teamsFetching` in-flight flag are written, every
other field of the store keeping its prior value. -/
theorem C10_fetchTeams_failure_frame (s : NBAState) (m : String)
    (hidle : s.teamsFetching = false) :
    (fetchTeams s (Except.error m)).1.teams = s.teams ∧
    (fetchTeams s (Except.error m)).1.error = some m ∧
    (fetchTeams s (Except.error m)).1.loading = false ∧
    (fetchTeams s (Except.error m)).1.teamsFetching = false ∧
    (fetchTeams s (Except.error m)).1.players = s.players ∧
    (fetchTeams s (Except.error m)).1.selectedPlayerId = s.selectedPlayerId ∧
    (fetchTeams s (Except.error m)).1.injuryPredictions = s.injuryPredictions ∧
    (fetchTeams s (Except.error m)).1.fetchingInfo = s.fetchingInfo ∧
    (fetchTeams s (Except.error m)).1.predictionsBatching = s.predictionsBatching := by
  refine ⟨?_, ?_, ?_, ?_, ?_, ?_, ?_, ?_, ?_⟩ <;>
    simp [fetchTeams, fetchTeamsStart, fetchTeamsComplete, hidle]

/-- Witness for C10 at a state already holding one team. -/
theorem C10_fetchTeams_failure_frame_witness :
    oneTeamState.teamsFetching = false ∧
    (fetchTeams oneTeamState (Except.error "down")).1.teams = [exTeam] ∧
    (fetchTeams oneTeamState (Except.error "down")).1.error = some "down" ∧
    (fetchTeams oneTeamState (Except.error "down")).1.teamsFetching = false := by
  have h := C10_fetchTeams_failure_frame oneTeamState "down" rfl
  exact ⟨rfl, h.1, h.2.1, h.2.2.2.1⟩

end NBA
